import Mathlib

/-!
# Verification of the weather-client request/normalization/formatting core

A shallow embedding, in Lean 4, of the core of the `weather` Go package
(repository `ivanfetch/weather-client`), together with theorems checking the
natural-language specification against it.

Modelling conventions:
* Go strings are Lean `String`s; where byte-level behaviour matters
  (URL percent-encoding) characters are expanded to their UTF-8 bytes,
  each byte a `Nat` below 256.
* Go `float64` values are modelled as rationals (`ℚ`). Every formula the
  spec mentions (`kelvin - 273.15`, `1.8*(kelvin-273)+32`,
  `meters * 2.236936`, `%.1f` rounding) is exact on the concrete inputs
  appearing in the claims, and the rational results round to the same
  one-decimal strings as the Go `float64` computation at those inputs.
* Go pointer fields used for optional JSON decoding (`*string`, `*float64`)
  become `Option`; a nil-pointer dereference (a Go runtime panic) is
  modelled as the `none` result of an `Option`-valued function.
* Methods that mutate their receiver are modelled by returning the updated
  receiver; a Go `error` result becomes `Option String` (`some msg` = error)
  or `Except String`.
-/

namespace Weather

/-! ## Units of speed and temperature (weather.go lines 17-47)

Go declares `SpeedUnit` and `TempUnit` as integer types with `iota`
constants; any `Int` inhabits them, validity is membership in the
name maps below. -/

/-- Go constant `SpeedUnitMiles` (`iota` = 0, the default). -/
def SpeedUnitMiles : Int := 0

/-- Go constant `SpeedUnitMeters` (`iota` = 1). -/
def SpeedUnitMeters : Int := 1

/-- Go constant `TempUnitFahrenheit` (`iota` = 0, the default). -/
def TempUnitFahrenheit : Int := 0

/-- Go constant `TempUnitCelsius` (`iota` = 1). -/
def TempUnitCelsius : Int := 1

/-- Go constant `TempUnitKelvin` (`iota` = 2). -/
def TempUnitKelvin : Int := 2

/-- The Go map `speedUnitName`; `none` models a key absent from the map. -/
def speedUnitName (u : Int) : Option String :=
  if u = SpeedUnitMiles then some "mph"
  else if u = SpeedUnitMeters then some "m/s"
  else none

/-- The Go map `tempUnitName`; `none` models a key absent from the map. -/
def tempUnitName (u : Int) : Option String :=
  if u = TempUnitFahrenheit then some " ºF"
  else if u = TempUnitCelsius then some " ºC"
  else if u = TempUnitKelvin then some "K"
  else none

/-! ## Data model (weather.go lines 49-81) -/

/-- Go struct `conditions`: API-agnostic weather conditions. Go's pointer
fields (`*string`, `*float64`) decode "absent" as nil; `Option` models that. -/
structure conditions where
  description : Option String
  temperature : Option ℚ
  feelsLike : Option ℚ
  humidity : Option ℚ
  windSpeed : Option ℚ
  deriving Repr, DecidableEq

/-- Element type of the `Weather` array inside Go struct `owmResponse`. -/
structure owmWeather where
  Description : Option String
  deriving Repr, DecidableEq

/-- The `Main` object inside Go struct `owmResponse`. -/
structure owmMain where
  Temp : Option ℚ
  Feels_like : Option ℚ
  Humidity : Option ℚ
  deriving Repr, DecidableEq

/-- The `Wind` object inside Go struct `owmResponse`. -/
structure owmWind where
  Speed : Option ℚ
  deriving Repr, DecidableEq

/-- Element type of the `List` array inside Go struct `owmResponse`. -/
structure owmListEntry where
  Weather : List owmWeather
  Main : owmMain
  Wind : owmWind
  deriving Repr, DecidableEq

/-- Go struct `owmResponse`: the decoded shape of the upstream JSON
(`{"list":[{"weather":[{"description":...}],"main":{...},"wind":{...}}]}`).
A JSON field absent from the payload decodes to `none`. -/
structure owmResponse where
  List : List owmListEntry
  deriving Repr, DecidableEq

/-- Go struct `Client` (the `HTTPClient` field is transport configuration
outside the modelled core and is omitted). The unit fields are plain Go
ints; nothing in the struct itself constrains them. -/
structure Client where
  APIKey : String
  APIHost : String
  APIURI : String
  speedUnit : Int
  tempUnit : Int
  deriving Repr, DecidableEq

/-! ## Setters and converters (weather.go lines 155-203) -/

/-- Go method `SetSpeedUnit`: validates `u` against the `speedUnitName` map,
assigning it only when found. Result: (receiver after the call, error). -/
def SetSpeedUnit (c : Client) (u : Int) : Client × Option String :=
  if (speedUnitName u).isSome then
    ({ c with speedUnit := u }, none)
  else
    (c, some "speed unit out of range, please use one of the SpeedUnitMeters or SpeedUnitMiles constants.")

/-- Go method `SetTempUnit`: validates `u` against the `tempUnitName` map,
assigning it only when found. Result: (receiver after the call, error). -/
def SetTempUnit (c : Client) (u : Int) : Client × Option String :=
  if (tempUnitName u).isSome then
    ({ c with tempUnit := u }, none)
  else
    (c, some "temperature unit out of range, please use one of the TempUnitCelsius, TempUnitFahrenheit, or TempUnitKelvin constants.")

/-- Go method `ConvertTemp`: Kelvin to the client's configured unit; the
switch falls through to the zero value `0` for an unit outside the three
constants. -/
def ConvertTemp (c : Client) (kelvin : ℚ) : ℚ :=
  if c.tempUnit = TempUnitCelsius then kelvin - 273.15
  else if c.tempUnit = TempUnitFahrenheit then 1.8 * (kelvin - 273) + 32
  else if c.tempUnit = TempUnitKelvin then kelvin
  else 0

/-- Go method `ConvertSpeed`: meters/sec to the client's configured unit;
the switch falls through to the zero value `0` for an unit outside the two
constants. -/
def ConvertSpeed (c : Client) (meters : ℚ) : ℚ :=
  if c.speedUnit = SpeedUnitMeters then meters
  else if c.speedUnit = SpeedUnitMiles then meters * 2.236936
  else 0

/-- `ConvertTemp` with the fall-through branch made observable: `none`
exactly when the Go switch would fall through to its zero value. -/
def ConvertTempChecked (c : Client) (kelvin : ℚ) : Option ℚ :=
  if c.tempUnit = TempUnitCelsius then some (kelvin - 273.15)
  else if c.tempUnit = TempUnitFahrenheit then some (1.8 * (kelvin - 273) + 32)
  else if c.tempUnit = TempUnitKelvin then some kelvin
  else none

/-- `ConvertSpeed` with the fall-through branch made observable: `none`
exactly when the Go switch would fall through to its zero value. -/
def ConvertSpeedChecked (c : Client) (meters : ℚ) : Option ℚ :=
  if c.speedUnit = SpeedUnitMeters then some meters
  else if c.speedUnit = SpeedUnitMiles then some (meters * 2.236936)
  else none

/-! ## Go `fmt` verb `%.1f` on the rational model

Go prints `float64` with one decimal by rounding the value to the nearest
tenth (ties to even). `round1` and `fmtF1` implement exactly that on `ℚ`. -/

/-- Nearest integer to `q * 10`, ties to even: the numerator of the
one-decimal rendering of `q`. -/
def round1 (q : ℚ) : Int :=
  let f := ⌊q * 10⌋
  if q * 10 - f < 1/2 then f
  else if 1/2 < q * 10 - f then f + 1
  else if f % 2 = 0 then f else f + 1

/-- Go's `%.1f` rendering of a (rational-modelled) float. -/
def fmtF1 (q : ℚ) : String :=
  let n := round1 q
  if n < 0 then "-" ++ toString ((-n) / 10) ++ "." ++ toString ((-n) % 10)
  else toString (n / 10) ++ "." ++ toString (n % 10)

/-! ## Response normalization (weather.go lines 205-246)

The Go method `queryAPI` performs the HTTP fetch (external transport, out of
the modelled core) and then normalizes the decoded `owmResponse`;
`queryAPIParse` embeds the normalization part (lines 231-245): the
non-emptiness checks on `List` and `List[0].Weather` and the construction of
`conditions` from the first entry. -/

/-- Normalization part of Go method `queryAPI`: `.error` models the
`(conditions{}, err)` return, `.ok` the successful `conditions`. -/
def queryAPIParse (ar : owmResponse) : Except String conditions :=
  match ar.List with
  | [] => .error "unexpected empty List from weather API"
  | e :: _ =>
    match e.Weather with
    | [] => .error "unexpected empty List[0].Weather from weather API"
    | w :: _ =>
      .ok { description := w.Description
            temperature := e.Main.Temp
            feelsLike := e.Main.Feels_like
            humidity := e.Main.Humidity
            windSpeed := e.Wind.Speed }

/-! ## Forecast formatting (weather.go lines 262-290) -/

/-- Go method `formatForecast`. Go looks the unit labels up in the name maps
(missing key yields the zero value `""`), builds one clause per present
field, then interpolates `*w.description` unconditionally: when
`w.description` is nil that dereference panics at runtime, modelled here by
the `none` result. -/
def formatForecast (c : Client) (w : conditions) : Option String :=
  let tempUnit := (tempUnitName c.tempUnit).getD ""
  let speedUnit := (speedUnitName c.speedUnit).getD ""
  let temperature :=
    match w.temperature with
    | some t => ", temp " ++ fmtF1 (ConvertTemp c t) ++ tempUnit
    | none => ""
  let feelsLike :=
    match w.feelsLike with
    | some t => ", feels like " ++ fmtF1 (ConvertTemp c t) ++ tempUnit
    | none => ""
  let humidity :=
    match w.humidity with
    | some h => ", humidity " ++ fmtF1 h ++ "%"
    | none => ""
  let wind :=
    match w.windSpeed with
    | some s => ", wind " ++ fmtF1 (ConvertSpeed c s) ++ " " ++ speedUnit
    | none => ""
  match w.description with
  | some d => some (d ++ temperature ++ feelsLike ++ humidity ++ wind)
  | none => none

/-! ## URL percent-encoding (Go standard library `net/url`)

`url.QueryEscape` works byte-wise on the UTF-8 encoding of its argument:
ASCII alphanumerics and `-`, `_`, `.`, `~` pass through, a space becomes
`+`, every other byte becomes `%` followed by two uppercase hex digits.
`url.QueryUnescape` inverts this (`+` back to space, `%XX` back to the
byte), failing on a `%` not followed by two hex digits. -/

/-- The UTF-8 bytes of one character (each below 256). -/
def utf8Bytes (c : Char) : List Nat :=
  if c.toNat < 128 then [c.toNat]
  else if c.toNat < 2048 then [192 + c.toNat / 64, 128 + c.toNat % 64]
  else if c.toNat < 65536 then
    [224 + c.toNat / 4096, 128 + (c.toNat / 64) % 64, 128 + c.toNat % 64]
  else
    [240 + c.toNat / 262144, 128 + (c.toNat / 4096) % 64, 128 + (c.toNat / 64) % 64,
      128 + c.toNat % 64]

/-- The UTF-8 bytes of a string. -/
def utf8Encode (s : String) : List Nat :=
  s.data.flatMap utf8Bytes

/-- The bytes `net/url` leaves unescaped in a query component:
ASCII alphanumerics and `-`, `_`, `.`, `~`. -/
def isUnreservedQuery (c : Char) : Bool :=
  let n := c.toNat
  (65 ≤ n && n ≤ 90) || (97 ≤ n && n ≤ 122) || (48 ≤ n && n ≤ 57) ||
    n = 45 || n = 95 || n = 46 || n = 126

/-- Uppercase hex digit for a value below 16 (Go's `"0123456789ABCDEF"`). -/
def hexDigit (n : Nat) : Char :=
  (['0', '1', '2', '3', '4', '5', '6', '7', '8', '9',
    'A', 'B', 'C', 'D', 'E', 'F']).getD n '0'

/-- Query-escape one character: unreserved characters pass through, space
becomes `+`, anything else is percent-encoded byte by byte. -/
def queryEscapeChar (c : Char) : List Char :=
  if c = ' ' then ['+']
  else if isUnreservedQuery c then [c]
  else (utf8Bytes c).flatMap (fun b => ['%', hexDigit (b / 16), hexDigit (b % 16)])

/-- Go `url.QueryEscape`. -/
def QueryEscape (s : String) : String :=
  String.mk (s.data.flatMap queryEscapeChar)

/-- Value of a hex digit character (either case), as `url.QueryUnescape`
reads them; `none` on a non-hex character. -/
def hexVal (c : Char) : Option Nat :=
  let n := c.toNat
  if 48 ≤ n && n ≤ 57 then some (n - 48)
  else if 97 ≤ n && n ≤ 102 then some (n - 87)
  else if 65 ≤ n && n ≤ 70 then some (n - 55)
  else none

/-- Go `url.QueryUnescape`, producing the decoded byte sequence: `+` becomes
the space byte 32, `%XX` the byte it names, any other character its own
UTF-8 bytes; a `%` not followed by two hex digits is an error (`none`). -/
def queryUnescapeBytes : List Char → Option (List Nat)
  | [] => some []
  | c :: rest =>
    if c = '%' then
      match rest with
      | h :: l :: rest2 =>
        match hexVal h, hexVal l with
        | some hv, some lv =>
          (queryUnescapeBytes rest2).map (fun r => (16 * hv + lv) :: r)
        | _, _ => none
      | _ => none
    else if c = '+' then
      (queryUnescapeBytes rest).map (fun r => 32 :: r)
    else
      (queryUnescapeBytes rest).map (fun r => utf8Bytes c ++ r)

/-! ## Request URL formation

Two request-URL builders appear in the source: the `Forecast` method of the
unit-constant client (weather.go line 250) builds the URL inline with no
units parameter, and the `formAPIUrl` method of the string-units client
(weather.go lines 477-495) appends a `units` parameter for every units
value other than `"standard"`. -/

/-- The URL built inline by Go method `Forecast` (weather.go line 250):
`fmt.Sprintf("%s%s/?q=%s&appid=%s&cnt=1", ...)`. -/
def forecastURL (c : Client) (location : String) : String :=
  c.APIHost ++ c.APIURI ++ "/?q=" ++ QueryEscape location ++ "&appid=" ++ c.APIKey ++ "&cnt=1"

/-- ASCII model of Go `strings.ToLower` (sufficient for the units strings
`"standard"` / `"metric"` / `"imperial"` the claims quantify over). -/
def toLowerAscii (s : String) : String :=
  String.mk (s.data.map Char.toLower)

/-- The string-units Go `Client` (weather.go lines 426-429); only the
fields `formAPIUrl` reads are modelled. -/
structure UnitsClient where
  APIKey : String
  APIHost : String
  APIUri : String
  Units : String
  deriving Repr, DecidableEq

/-- Go method `formAPIUrl` (weather.go lines 477-495): query options are
empty for `"standard"` units, `&units=<lowercased units>` otherwise, always
followed by `&cnt=1`; the Go `error` result is always nil and is elided. -/
def formAPIUrl (c : UnitsClient) (city : String) : String :=
  let APIQueryOptions :=
    (if toLowerAscii c.Units = "standard" then ""
     else "&units=" ++ toLowerAscii c.Units) ++ "&cnt=1"
  c.APIHost ++ c.APIUri ++ "/?q=" ++ QueryEscape city ++ "&appid=" ++ c.APIKey ++ APIQueryOptions

/-! ## Client construction (weather.go lines 83-143) -/

/-- The Go functional options (`clientOption` values produced by the
`With...` constructors). `withHTTPClient` sets only the transport field,
which is outside the modelled core. -/
inductive clientOption where
  | withAPIHost (host : String)
  | withAPIURI (uri : String)
  | withHTTPClient
  | withSpeedUnit (u : Int)
  | withTempUnit (u : Int)
  deriving Repr, DecidableEq

/-- Application of one option function to the client under construction. -/
def applyOption (c : Client) (o : clientOption) : Client × Option String :=
  match o with
  | .withAPIHost host => ({ c with APIHost := host }, none)
  | .withAPIURI uri => ({ c with APIURI := uri }, none)
  | .withHTTPClient => (c, none)
  | .withSpeedUnit u => SetSpeedUnit c u
  | .withTempUnit u => SetTempUnit c u

/-- The option loop of Go `NewClient`: the first failing option aborts
construction (`nil, err` in Go, `none` here). -/
def applyOptions : Client → List clientOption → Option Client
  | c, [] => some c
  | c, o :: rest =>
    match applyOption c o with
    | (c2, none) => applyOptions c2 rest
    | (_, some _) => none

/-- Go `NewClient` (weather.go lines 126-143). The struct literal sets the
key, host and URI; `speedUnit` and `tempUnit` start at their Go zero value
0 (= `SpeedUnitMiles` / `TempUnitFahrenheit`). -/
def NewClient (APIKey : String) (options : List clientOption) : Option Client :=
  applyOptions
    { APIKey := APIKey
      APIHost := "https://api.openweathermap.org"
      APIURI := "/data/2.5/forecast"
      speedUnit := 0
      tempUnit := 0 }
    options

/-- A client whose unit fields hold recognized variants. -/
def validClient (c : Client) : Prop :=
  (c.speedUnit = SpeedUnitMiles ∨ c.speedUnit = SpeedUnitMeters) ∧
    (c.tempUnit = TempUnitFahrenheit ∨ c.tempUnit = TempUnitCelsius ∨ c.tempUnit = TempUnitKelvin)

/-- Clients reachable through the exported API: built by `NewClient` and
mutated only by successful `SetSpeedUnit` / `SetTempUnit` calls. -/
inductive ReachableClient : Client → Prop where
  | fromNew (key : String) (opts : List clientOption) (c : Client) :
      NewClient key opts = some c → ReachableClient c
  | fromSetSpeed (c : Client) (u : Int) (c2 : Client) :
      ReachableClient c → SetSpeedUnit c u = (c2, none) → ReachableClient c2
  | fromSetTemp (c : Client) (u : Int) (c2 : Client) :
      ReachableClient c → SetTempUnit c u = (c2, none) → ReachableClient c2

/-! ## Supporting lemmas -/

/-- Every code point is below `0x110000`. -/
lemma char_toNat_lt (c : Char) : c.toNat < 1114112 := by
  rcases c.valid with h | ⟨_, h2⟩
  · exact Nat.lt_trans h (by decide)
  · exact h2

/-- UTF-8 bytes are bytes. -/
lemma utf8Bytes_lt (c : Char) : ∀ b ∈ utf8Bytes c, b < 256 := by
  have hc := char_toNat_lt c
  unfold utf8Bytes
  split_ifs with h1 h2 h3 <;> intro b hb <;>
    simp only [List.mem_cons, List.mem_singleton, List.not_mem_nil, or_false] at hb
  · omega
  · rcases hb with rfl | rfl <;> omega
  · rcases hb with rfl | rfl | rfl <;> omega
  · rcases hb with rfl | rfl | rfl | rfl <;> omega

/-- Reading a hex digit back recovers the value it names. -/
lemma hexVal_hexDigit (n : Nat) (h : n < 16) : hexVal (hexDigit n) = some n := by
  interval_cases n <;> rfl

/-- Unescaping a percent-encoded byte recovers the byte. -/
lemma unescape_percent (b : Nat) (hb : b < 256) (rest : List Char) :
    queryUnescapeBytes ('%' :: hexDigit (b / 16) :: hexDigit (b % 16) :: rest)
      = (queryUnescapeBytes rest).map (fun r => b :: r) := by
  have h1 : hexVal (hexDigit (b / 16)) = some (b / 16) := hexVal_hexDigit _ (by omega)
  have h2 : hexVal (hexDigit (b % 16)) = some (b % 16) := hexVal_hexDigit _ (by omega)
  rw [queryUnescapeBytes.eq_def]
  dsimp only []
  rw [if_pos rfl, h1, h2]
  dsimp only []
  simp only [Nat.div_add_mod]

/-- Unescaping a run of percent-encoded bytes recovers the bytes. -/
lemma unescape_percent_run (bs : List Nat) (hbs : ∀ b ∈ bs, b < 256) (rest : List Char) :
    queryUnescapeBytes
        (bs.flatMap (fun b => ['%', hexDigit (b / 16), hexDigit (b % 16)]) ++ rest)
      = (queryUnescapeBytes rest).map (fun r => bs ++ r) := by
  induction bs with
  | nil =>
    simp only [List.flatMap_nil, List.nil_append]
    cases hq : queryUnescapeBytes rest <;> simp [hq]
  | cons b bs ih =>
    simp only [List.flatMap_cons, List.append_assoc, List.cons_append, List.nil_append]
    rw [unescape_percent b (hbs b (by simp)) _, ih (fun x hx => hbs x (by simp [hx]))]
    cases queryUnescapeBytes rest <;> simp

/-- Unescaping the escape of one character prepends that character's UTF-8
bytes to whatever the rest unescapes to. -/
lemma unescape_escapeChar (c : Char) (rest : List Char) :
    queryUnescapeBytes (queryEscapeChar c ++ rest)
      = (queryUnescapeBytes rest).map (fun r => utf8Bytes c ++ r) := by
  unfold queryEscapeChar
  split_ifs with hsp hun
  · subst hsp
    have hplus : queryUnescapeBytes ('+' :: rest)
        = (queryUnescapeBytes rest).map (fun r => 32 :: r) := by
      rw [queryUnescapeBytes.eq_def]
      dsimp only []
      rw [if_neg (by decide), if_pos rfl]
    rw [List.singleton_append, hplus]
    cases queryUnescapeBytes rest <;> rfl
  · have hc1 : c ≠ '%' := by
      rintro rfl; exact absurd hun (by decide)
    have hc2 : c ≠ '+' := by
      rintro rfl; exact absurd hun (by decide)
    rw [List.singleton_append, queryUnescapeBytes.eq_def]
    dsimp only []
    rw [if_neg hc1, if_neg hc2]
  · exact unescape_percent_run _ (utf8Bytes_lt c) rest

/-- Unescaping the escape of a character list yields its UTF-8 bytes. -/
lemma unescape_escape_list (l : List Char) :
    queryUnescapeBytes (l.flatMap queryEscapeChar) = some (l.flatMap utf8Bytes) := by
  induction l with
  | nil => rfl
  | cons c cs ih =>
    rw [List.flatMap_cons, unescape_escapeChar, ih, List.flatMap_cons]
    rfl

/-- Membership of the speed-unit name map is exactly the two constants. -/
lemma speedUnitName_isSome (u : Int) :
    (speedUnitName u).isSome ↔ (u = SpeedUnitMiles ∨ u = SpeedUnitMeters) := by
  unfold speedUnitName
  split_ifs <;> simp_all

/-- Membership of the temperature-unit name map is exactly the three constants. -/
lemma tempUnitName_isSome (u : Int) :
    (tempUnitName u).isSome ↔
      (u = TempUnitFahrenheit ∨ u = TempUnitCelsius ∨ u = TempUnitKelvin) := by
  unfold tempUnitName
  split_ifs <;> simp_all

/-- A successful `SetSpeedUnit` stores a recognized unit and touches nothing else. -/
lemma SetSpeedUnit_ok (c : Client) (u : Int) (c2 : Client)
    (h : SetSpeedUnit c u = (c2, none)) :
    (u = SpeedUnitMiles ∨ u = SpeedUnitMeters) ∧ c2 = { c with speedUnit := u } := by
  unfold SetSpeedUnit at h
  split_ifs at h with hu
  · exact ⟨(speedUnitName_isSome u).mp hu, (Prod.mk.injEq .. ▸ h).1.symm⟩
  · exact absurd (congrArg Prod.snd h) (by simp)

/-- A successful `SetTempUnit` stores a recognized unit and touches nothing else. -/
lemma SetTempUnit_ok (c : Client) (u : Int) (c2 : Client)
    (h : SetTempUnit c u = (c2, none)) :
    (u = TempUnitFahrenheit ∨ u = TempUnitCelsius ∨ u = TempUnitKelvin) ∧
      c2 = { c with tempUnit := u } := by
  unfold SetTempUnit at h
  split_ifs at h with hu
  · exact ⟨(tempUnitName_isSome u).mp hu, (Prod.mk.injEq .. ▸ h).1.symm⟩
  · exact absurd (congrArg Prod.snd h) (by simp)

/-- Each successfully applied option preserves unit validity. -/
lemma applyOption_valid (c : Client) (o : clientOption) (c2 : Client)
    (h : applyOption c o = (c2, none)) (hv : validClient c) : validClient c2 := by
  cases o with
  | withAPIHost host =>
    cases h; exact hv
  | withAPIURI uri =>
    cases h; exact hv
  | withHTTPClient =>
    cases h; exact hv
  | withSpeedUnit u =>
    obtain ⟨hu, rfl⟩ := SetSpeedUnit_ok c u c2 h
    exact ⟨hu, hv.2⟩
  | withTempUnit u =>
    obtain ⟨hu, rfl⟩ := SetTempUnit_ok c u c2 h
    exact ⟨hv.1, hu⟩

/-- The option loop preserves unit validity. -/
lemma applyOptions_valid : ∀ (opts : List clientOption) (c c2 : Client),
    validClient c → applyOptions c opts = some c2 → validClient c2
  | [], c, c2, hv, h => by
    cases h; exact hv
  | o :: rest, c, c2, hv, h => by
    unfold applyOptions at h
    rcases ho : applyOption c o with ⟨c3, err⟩
    rw [ho] at h
    cases err with
    | none => exact applyOptions_valid rest c3 c2 (applyOption_valid c o c3 ho hv) h
    | some msg => exact absurd h (by simp)

/-! ## Concrete values used by closed theorems -/

/-- A concrete client with the Go zero-value units
(`SpeedUnitMiles`, `TempUnitFahrenheit`). -/
def testClient : Client :=
  { APIKey := "k", APIHost := "h", APIURI := "u", speedUnit := 0, tempUnit := 0 }

/-- The client `NewClient "k" []` constructs. -/
def defaultClient : Client :=
  { APIKey := "k", APIHost := "https://api.openweathermap.org",
    APIURI := "/data/2.5/forecast", speedUnit := 0, tempUnit := 0 }

/-! ## Claim theorems -/

/-- C1: for every host, path, API key and location, the URL builder produces
exactly `host ++ path ++ "/?q=" ++ queryEscape(location) ++ "&appid=" ++ key`,
followed by `&units=metric` for Metric units, `&units=imperial` for Imperial,
and no units parameter for Standard, followed by `&cnt=1`; the parameters
appear in this fixed order. The fourth conjunct covers the inline URL of the
unit-constant client's `Forecast`, which sends the Standard form. -/
theorem urlBuilder_fixed_parameter_order (host path key loc : String) :
    formAPIUrl { APIKey := key, APIHost := host, APIUri := path, Units := "standard" } loc
        = host ++ path ++ "/?q=" ++ QueryEscape loc ++ "&appid=" ++ key ++ "&cnt=1"
      ∧ formAPIUrl { APIKey := key, APIHost := host, APIUri := path, Units := "metric" } loc
        = host ++ path ++ "/?q=" ++ QueryEscape loc ++ "&appid=" ++ key
            ++ "&units=metric" ++ "&cnt=1"
      ∧ formAPIUrl { APIKey := key, APIHost := host, APIUri := path, Units := "imperial" } loc
        = host ++ path ++ "/?q=" ++ QueryEscape loc ++ "&appid=" ++ key
            ++ "&units=imperial" ++ "&cnt=1"
      ∧ ∀ su tu : Int,
          forecastURL
              { APIKey := key, APIHost := host, APIURI := path, speedUnit := su, tempUnit := tu }
              loc
            = host ++ path ++ "/?q=" ++ QueryEscape loc ++ "&appid=" ++ key ++ "&cnt=1" := by
  refine ⟨rfl, ?_, ?_, fun su tu => rfl⟩
  · conv_rhs => rw [String.append_assoc]
    rfl
  · conv_rhs => rw [String.append_assoc]
    rfl

/-- C2 counterexample: on the quoted `Conditions` and the Imperial client
(Fahrenheit + miles), the formatter does NOT return the string the claim
quotes: the code's `1.8*(kelvin-273)+32` conversion gives 82.7 and 80.6
(not 82.8 and 80.8) and its miles label is `"mph"` (not `"MPH"`). -/
theorem formatForecast_imperial_clearSky_claim_false :
    formatForecast
        { APIKey := "k", APIHost := "h", APIURI := "u",
          speedUnit := SpeedUnitMiles, tempUnit := TempUnitFahrenheit }
        { description := some "clear sky", temperature := some 301.15,
          feelsLike := some 300.0, humidity := some 38.0, windSpeed := some 4.12 }
      ≠ some "clear sky, temp 82.8 ºF, feels like 80.8 ºF, humidity 38.0%, wind 9.2 MPH" := by
  with_unfolding_all decide

/-- C2 (amended): on the quoted `Conditions` and the Imperial client, the
formatter returns exactly
`"clear sky, temp 82.7 ºF, feels like 80.6 ºF, humidity 38.0%, wind 9.2 mph"`. -/
theorem formatForecast_imperial_clearSky_actual :
    formatForecast
        { APIKey := "k", APIHost := "h", APIURI := "u",
          speedUnit := SpeedUnitMiles, tempUnit := TempUnitFahrenheit }
        { description := some "clear sky", temperature := some 301.15,
          feelsLike := some 300.0, humidity := some 38.0, windSpeed := some 4.12 }
      = some "clear sky, temp 82.7 ºF, feels like 80.6 ºF, humidity 38.0%, wind 9.2 mph" := by
  with_unfolding_all decide

/-- C3: whenever the decoded payload has an empty top-level `list`, or a
first entry with an empty `weather` array, normalization returns an error
(so no `conditions` value, zero-valued or otherwise, is produced). -/
theorem queryAPIParse_rejects_empty_lists (ar : owmResponse)
    (h : ar.List = [] ∨ ∃ e rest, ar.List = e :: rest ∧ e.Weather = []) :
    ∃ msg, queryAPIParse ar = .error msg := by
  rcases h with h | ⟨e, rest, h, hw⟩
  · exact ⟨_, by unfold queryAPIParse; rw [h]⟩
  · exact ⟨_, by unfold queryAPIParse; rw [h]; dsimp only []; rw [hw]⟩

/-- C3 witness: the decoded form of the payload whose `list` array is empty
always fails. -/
theorem queryAPIParse_rejects_empty_lists_witness :
    ∃ msg, queryAPIParse { List := [] } = .error msg :=
  queryAPIParse_rejects_empty_lists { List := [] } (Or.inl rfl)

/-- C4: on every successfully normalized payload, each field of the
resulting `conditions` is exactly the corresponding optional field of the
first `list` entry — absent stays absent (never a substituted `0.0`),
present keeps its value. -/
theorem queryAPIParse_preserves_absent_fields (ar : owmResponse) (e : owmListEntry)
    (rest : List owmListEntry) (w : owmWeather) (ws : List owmWeather)
    (hl : ar.List = e :: rest) (hw : e.Weather = w :: ws) :
    queryAPIParse ar = .ok
      { description := w.Description, temperature := e.Main.Temp,
        feelsLike := e.Main.Feels_like, humidity := e.Main.Humidity,
        windSpeed := e.Wind.Speed } := by
  unfold queryAPIParse
  rw [hl]
  dsimp only []
  rw [hw]

/-- C4 witness: a payload with `feels_like` and `wind.speed` absent
normalizes with those fields absent and the others preserved. -/
theorem queryAPIParse_preserves_absent_fields_witness :
    queryAPIParse
        { List := [{ Weather := [{ Description := some "clear sky" }],
                     Main := { Temp := some 301.15, Feels_like := none, Humidity := some 38 },
                     Wind := { Speed := none } }] }
      = .ok { description := some "clear sky", temperature := some 301.15,
              feelsLike := none, humidity := some 38, windSpeed := none } :=
  queryAPIParse_preserves_absent_fields _ _ _ _ _ rfl rfl

/-- C5: for every Kelvin value, `ConvertTemp` is the identity under the
Kelvin unit, `kelvin - 273.15` under Celsius, and `1.8*(kelvin-273)+32`
(the rounded 273 offset) under Fahrenheit, whatever the other client
fields. -/
theorem ConvertTemp_formulas (key host uri : String) (su : Int) (k : ℚ) :
    ConvertTemp
        { APIKey := key, APIHost := host, APIURI := uri, speedUnit := su,
          tempUnit := TempUnitKelvin } k = k
      ∧ ConvertTemp
          { APIKey := key, APIHost := host, APIURI := uri, speedUnit := su,
            tempUnit := TempUnitCelsius } k = k - 273.15
      ∧ ConvertTemp
          { APIKey := key, APIHost := host, APIURI := uri, speedUnit := su,
            tempUnit := TempUnitFahrenheit } k = 1.8 * (k - 273) + 32 :=
  ⟨rfl, rfl, rfl⟩

/-- C6: on a payload whose first weather entry lacks a description, the
normalizer does NOT error — it returns a `conditions` whose description is
absent — and the formatter then dereferences that nil description
(a Go runtime panic, modelled by `none`) instead of returning an error,
for every client. This exhibits the code bug behind the claim. -/
theorem missing_description_reaches_formatter :
    queryAPIParse
        { List := [{ Weather := [{ Description := none }],
                     Main := { Temp := none, Feels_like := none, Humidity := none },
                     Wind := { Speed := none } }] }
      = .ok { description := none, temperature := none, feelsLike := none,
              humidity := none, windSpeed := none }
    ∧ ∀ c : Client,
        formatForecast c
            { description := none, temperature := none, feelsLike := none,
              humidity := none, windSpeed := none }
          = none :=
  ⟨rfl, fun _ => rfl⟩

/-- C7: with the temperature absent and every other field present, the
formatted output is exactly the description followed by the feels-like,
humidity and wind clauses in that order — no `", temp ..."` clause and no
placeholder, for every client. -/
theorem formatForecast_omits_absent_temperature (c : Client) (d : String) (f h s : ℚ) :
    formatForecast c
        { description := some d, temperature := none, feelsLike := some f,
          humidity := some h, windSpeed := some s }
      = some (d ++ (", feels like " ++ fmtF1 (ConvertTemp c f)
              ++ (tempUnitName c.tempUnit).getD "")
          ++ (", humidity " ++ fmtF1 h ++ "%")
          ++ (", wind " ++ fmtF1 (ConvertSpeed c s) ++ " "
              ++ (speedUnitName c.speedUnit).getD "")) := by
  show some ((((d ++ "")
      ++ (", feels like " ++ fmtF1 (ConvertTemp c f) ++ (tempUnitName c.tempUnit).getD ""))
      ++ (", humidity " ++ fmtF1 h ++ "%"))
      ++ (", wind " ++ fmtF1 (ConvertSpeed c s) ++ " " ++ (speedUnitName c.speedUnit).getD ""))
    = _
  rw [String.append_empty]

/-- C8: the unit setters return an error exactly on units outside the
recognized variants, and an erroring call leaves the client unchanged. -/
theorem setUnit_validation_and_no_mutation (c : Client) (u : Int) :
    ((SetSpeedUnit c u).2.isSome ↔ ¬(u = SpeedUnitMiles ∨ u = SpeedUnitMeters))
      ∧ ((SetSpeedUnit c u).2.isSome → (SetSpeedUnit c u).1 = c)
      ∧ ((SetTempUnit c u).2.isSome
          ↔ ¬(u = TempUnitFahrenheit ∨ u = TempUnitCelsius ∨ u = TempUnitKelvin))
      ∧ ((SetTempUnit c u).2.isSome → (SetTempUnit c u).1 = c) := by
  have hs := speedUnitName_isSome u
  have ht := tempUnitName_isSome u
  unfold SetSpeedUnit SetTempUnit
  constructor
  · split_ifs with h1 <;> simp_all
  constructor
  · split_ifs with h1 <;> simp
  constructor
  · split_ifs with h1 <;> simp_all
  · split_ifs with h1 <;> simp

/-- C8 witness: unit 30 is rejected by both setters and the client is left
unchanged. -/
theorem setUnit_validation_and_no_mutation_witness :
    (SetSpeedUnit testClient 30).2.isSome
      ∧ (SetSpeedUnit testClient 30).1 = testClient
      ∧ (SetTempUnit testClient 30).2.isSome
      ∧ (SetTempUnit testClient 30).1 = testClient := by
  have h := setUnit_validation_and_no_mutation testClient 30
  exact ⟨h.1.mpr (by decide), h.2.1 (h.1.mpr (by decide)),
    h.2.2.1.mpr (by decide), h.2.2.2 (h.2.2.1.mpr (by decide))⟩

/-- C9: for every location string, percent-decoding the `q` query-parameter
value the URL builder inserts (`QueryEscape location`, per C1's URL shape)
yields exactly the UTF-8 bytes of the location: query-escaping then
unescaping is the identity. -/
theorem queryEscape_roundtrip (location : String) :
    queryUnescapeBytes (QueryEscape location).data = some (utf8Encode location) :=
  unescape_escape_list location.data

/-- C10: every client reachable through the exported API — built by
`NewClient` (whose options validate units through the setters) and mutated
only by successful setter calls — carries recognized speed and temperature
units, so the zero-returning fall-through branches of `ConvertTemp` and
`ConvertSpeed` are never taken for it. -/
theorem reachable_client_units_valid (c : Client) (h : ReachableClient c) :
    validClient c
      ∧ ∀ k : ℚ, (ConvertTempChecked c k).isSome ∧ (ConvertSpeedChecked c k).isSome := by
  have hv : validClient c := by
    induction h with
    | fromNew key opts c0 hn =>
      exact applyOptions_valid opts _ c0 ⟨Or.inl rfl, Or.inl rfl⟩ hn
    | fromSetSpeed c0 u c2 _ hs ih =>
      obtain ⟨hu, rfl⟩ := SetSpeedUnit_ok c0 u c2 hs
      exact ⟨hu, ih.2⟩
    | fromSetTemp c0 u c2 _ ht ih =>
      obtain ⟨hu, rfl⟩ := SetTempUnit_ok c0 u c2 ht
      exact ⟨ih.1, hu⟩
  refine ⟨hv, fun k => ⟨?_, ?_⟩⟩
  · rcases hv.2 with h1 | h1 | h1 <;>
      simp [ConvertTempChecked, h1, TempUnitFahrenheit, TempUnitCelsius, TempUnitKelvin]
  · rcases hv.1 with h1 | h1 <;>
      simp [ConvertSpeedChecked, h1, SpeedUnitMiles, SpeedUnitMeters]

/-- C10 witness: the default-constructed client is reachable, has valid
units, and its temperature conversion avoids the fall-through at 300 K. -/
theorem reachable_client_units_valid_witness :
    validClient defaultClient ∧ (ConvertTempChecked defaultClient 300).isSome := by
  have h := reachable_client_units_valid defaultClient
    (ReachableClient.fromNew "k" [] defaultClient rfl)
  exact ⟨h.1, (h.2 300).1⟩

end Weather
